import Mathlib

/-!
Verification of the Noir circuit adapter layer of the reclaim-extension
repository against its natural-language specification.

The development shallowly embeds the JavaScript source:

* `src/src/utils/noir-adapter.test.js` (the file also carries the two
  `NoirCircuitAdapter` implementations; the authoritative one is the
  second, zk-symmetric-crypto based variant at lines 599-834):
  `initializeCircuit`, `generateProof`, `verifyProof`, `getCircuitInfo`,
  `listCircuits`, `cleanup`, `cleanupAll`.
* `src/test-noir-integration.js` and
  `src/docs/benchmark/noir-circuit-benchmark.js`: the combined
  nonce/counter block assembly (`fullCounter`).
* `src/unnamed/part_002` (the Barretenberg operator): `loadCircuit`,
  `initializeBackend`, `ultrahonkVerify`.

JavaScript numbers are embedded as `Int`, with the ECMAScript 32-bit
coercions (`ToUint32`/`ToInt32`) made explicit wherever the source uses
`<<`, `>>>`, `|` or `&`.  Byte arrays (`Uint8Array`) are `List Nat` with
the mod-256 element coercion explicit.  The proving package
(`zk-symmetric-crypto-test`, vendored in the repository outside `src/`)
is modelled from the specification where noted.
-/

/-- ECMAScript `ToUint32`: the operand reduced into `[0, 2^32)`. -/
def toUint32 (x : Int) : Nat := (x % (4294967296 : Int)).toNat

/-- ECMAScript `ToInt32`: the operand reduced into `[-2^31, 2^31)`. -/
def toInt32 (x : Int) : Int :=
  if toUint32 x < 2147483648 then (toUint32 x : Int) else (toUint32 x : Int) - 4294967296

/-- JavaScript `x << k` (signed 32-bit left shift; shift count taken mod 32). -/
def jsShl (x : Int) (k : Nat) : Int := toInt32 ((toUint32 x <<< (k % 32) : Nat) : Int)

/-- JavaScript `x >>> k` (unsigned 32-bit right shift; the result is non-negative). -/
def jsShrU (x : Int) (k : Nat) : Int := ((toUint32 x >>> (k % 32) : Nat) : Int)

/-- JavaScript `x | y` (bitwise or on the 32-bit patterns, result signed). -/
def jsOr (x y : Int) : Int := toInt32 ((toUint32 x ||| toUint32 y : Nat) : Int)

/-- JavaScript `x & y` (bitwise and on the 32-bit patterns, result signed). -/
def jsAnd (x y : Int) : Int := toInt32 ((toUint32 x &&& toUint32 y : Nat) : Int)

/-- The element coercion a `Uint8Array` applies to a stored JS number. -/
def jsByteOf (x : Int) : Nat := (x % (256 : Int)).toNat

/-- The combined 16-byte nonce/counter block built by the callers of
`generateProof` (`test-noir-integration.js` lines 52-63,
`noir-circuit-benchmark.js` lines 282-293): a 16-slot array filled with 0,
the first 12 slots taken from the nonce, the last four set to
`(counter >>> 24) & 0xFF`, `(counter >>> 16) & 0xFF`, `(counter >>> 8) & 0xFF`
and `counter & 0xFF` in that order. -/
def buildFullCounter (nonce : List Nat) (counter : Int) : List Int :=
  (List.range 16).map fun i =>
    if i < 12 then ((nonce.getD i 0 : Nat) : Int)
    else if i = 12 then jsAnd (jsShrU counter 24) 255
    else if i = 13 then jsAnd (jsShrU counter 16) 255
    else if i = 14 then jsAnd (jsShrU counter 8) 255
    else jsAnd counter 255

/-- The nonce extracted by the combined-layout path of the adapter's
`generateProof` (`noir-adapter.test.js` line 702):
`new Uint8Array(counterArray.slice(0, 12))`. -/
def splitNonce (counterArray : List Int) : List Nat :=
  (counterArray.take 12).map jsByteOf

/-- The numeric counter extracted by the combined-layout path of the adapter's
`generateProof` (`noir-adapter.test.js` line 703):
`(counterArray[12] << 24) | (counterArray[13] << 16) | (counterArray[14] << 8) | counterArray[15]`.
A JavaScript read past the end of the array yields `undefined`, which the
bitwise operators coerce to 0; `getD _ 0` reproduces that. -/
def splitCounterValue (counterArray : List Int) : Int :=
  jsOr (jsOr (jsOr (jsShl (counterArray.getD 12 0) 24) (jsShl (counterArray.getD 13 0) 16))
      (jsShl (counterArray.getD 14 0) 8))
    (counterArray.getD 15 0)

theorem toUint32_ofNat (n : Nat) (h : n < 4294967296) : toUint32 (n : Int) = n := by
  unfold toUint32
  omega

theorem toInt32_ofNat (n : Nat) (h : n < 2147483648) : toInt32 (n : Int) = (n : Int) := by
  unfold toInt32
  rw [toUint32_ofNat n (by omega)]
  simp [h]

/-- `x & 255` on a small non-negative operand is `x % 256`. -/
theorem jsAnd_255 (n : Nat) (h : n < 4294967296) :
    jsAnd (n : Int) 255 = ((n % 256 : Nat) : Int) := by
  unfold jsAnd
  have hu : toUint32 (255 : Int) = 255 := rfl
  rw [toUint32_ofNat n h, hu]
  have h255 : n &&& 255 = n % 256 := by
    have := Nat.and_pow_two_sub_one_eq_mod n 8
    simpa using this
  rw [h255, toInt32_ofNat _ (by omega)]

/-- `x >>> k` on a small non-negative operand is division by `2^k`. -/
theorem jsShrU_ofNat (n : Nat) (k : Nat) (hk : k < 32) (h : n < 4294967296) :
    jsShrU (n : Int) k = ((n / 2 ^ k : Nat) : Int) := by
  unfold jsShrU
  rw [toUint32_ofNat n h, Nat.mod_eq_of_lt hk, Nat.shiftRight_eq_div_pow]

/-- `x << k` on a small operand whose shifted value stays below `2^31`. -/
theorem jsShl_small (n : Nat) (k : Nat) (hk : k < 32) (h : n * 2 ^ k < 2147483648) :
    jsShl (n : Int) k = ((n * 2 ^ k : Nat) : Int) := by
  unfold jsShl
  rw [toUint32_ofNat n (by nlinarith [Nat.one_le_two_pow (n := k)]), Nat.mod_eq_of_lt hk,
    Nat.shiftLeft_eq, toInt32_ofNat _ h]

/-- `x | y` of small disjoint operands (`y < 2^k ∣ x`) is their sum. -/
theorem jsOr_disjoint (a b k : Nat) (hb : b < 2 ^ k)
    (ha : 2 ^ k * a + b < 2147483648) :
    jsOr ((2 ^ k * a : Nat) : Int) ((b : Nat) : Int) = ((2 ^ k * a + b : Nat) : Int) := by
  unfold jsOr
  rw [toUint32_ofNat (2 ^ k * a) (by omega), toUint32_ofNat b (by omega),
    ← Nat.mul_add_lt_is_or hb a, toInt32_ofNat _ ha]

theorem jsByteOf_ofNat (b : Nat) (h : b < 256) : jsByteOf ((b : Nat) : Int) = b := by
  unfold jsByteOf
  omega

theorem buildFullCounter_getD_12 (nonce : List Nat) (c : Int) :
    (buildFullCounter nonce c).getD 12 0 = jsAnd (jsShrU c 24) 255 := rfl

theorem buildFullCounter_getD_13 (nonce : List Nat) (c : Int) :
    (buildFullCounter nonce c).getD 13 0 = jsAnd (jsShrU c 16) 255 := rfl

theorem buildFullCounter_getD_14 (nonce : List Nat) (c : Int) :
    (buildFullCounter nonce c).getD 14 0 = jsAnd (jsShrU c 8) 255 := rfl

theorem buildFullCounter_getD_15 (nonce : List Nat) (c : Int) :
    (buildFullCounter nonce c).getD 15 0 = jsAnd c 255 := rfl

/-- Splitting the assembled block recovers the 12-byte nonce. -/
theorem splitNonce_buildFullCounter (nonce : List Nat) (c : Int)
    (hlen : nonce.length = 12) (hb : ∀ b ∈ nonce, b < 256) :
    splitNonce (buildFullCounter nonce c) = nonce := by
  rcases nonce with _ | ⟨a0, _ | ⟨a1, _ | ⟨a2, _ | ⟨a3, _ | ⟨a4, _ | ⟨a5, _ | ⟨a6, _ | ⟨a7,
    _ | ⟨a8, _ | ⟨a9, _ | ⟨a10, _ | ⟨a11, rest⟩⟩⟩⟩⟩⟩⟩⟩⟩⟩⟩⟩ <;>
    simp only [List.length_cons, List.length_nil] at hlen <;> try omega
  have hrest : rest = [] := List.eq_nil_of_length_eq_zero (by omega)
  subst hrest
  simp only [List.mem_cons, forall_eq_or_imp] at hb
  obtain ⟨h0, h1, h2, h3, h4, h5, h6, h7, h8, h9, h10, h11, -⟩ := hb
  show List.map jsByteOf _ = _
  simp [jsByteOf_ofNat, h0, h1, h2, h3, h4, h5, h6, h7, h8, h9, h10, h11,
    List.take, buildFullCounter, List.range_succ]

theorem toUint32_lt (x : Int) : toUint32 x < 4294967296 := by
  unfold toUint32
  omega

/-- `ToInt32` and `ToUint32` agree on the underlying 32-bit pattern. -/
theorem toUint32_toInt32 (x : Int) : toUint32 (toInt32 x) = toUint32 x := by
  unfold toInt32 toUint32
  split <;> omega

/-- The 32-bit pattern of `b << k` for a small operand with no overflow. -/
theorem toUint32_jsShl_small (b k : Nat) (hk : k < 32) (hb : b < 4294967296)
    (h : b * 2 ^ k < 4294967296) :
    toUint32 (jsShl (b : Int) k) = b * 2 ^ k := by
  unfold jsShl
  rw [toUint32_toInt32, toUint32_ofNat b hb, Nat.mod_eq_of_lt hk, Nat.shiftLeft_eq,
    toUint32_ofNat _ h]

/-- The 32-bit pattern of `x | y` is the bitwise or of the operand patterns. -/
theorem toUint32_jsOr (x y : Int) :
    toUint32 (jsOr x y) = toUint32 x ||| toUint32 y := by
  have hx : toUint32 x < 2 ^ 32 := by have := toUint32_lt x; omega
  have hy : toUint32 y < 2 ^ 32 := by have := toUint32_lt y; omega
  have hor : toUint32 x ||| toUint32 y < 4294967296 := by
    have := Nat.or_lt_two_pow hx hy
    omega
  unfold jsOr
  rw [toUint32_toInt32, toUint32_ofNat _ hor]

theorem jsOr_eq (x y : Int) :
    jsOr x y = toInt32 ((toUint32 x ||| toUint32 y : Nat) : Int) := rfl

/-- Splitting the assembled block recovers, for every counter below `2^32`,
the counter reinterpreted as a signed 32-bit integer (`ToInt32`): the exact
value below `2^31`, the value minus `2^32` above. -/
theorem splitCounterValue_buildFullCounter (nonce : List Nat) (c : Nat)
    (hc : c < 4294967296) :
    splitCounterValue (buildFullCounter nonce (c : Int)) = toInt32 (c : Int) := by
  have h12 : c / 2 ^ 24 % 256 = c / 2 ^ 24 := by omega
  unfold splitCounterValue
  rw [buildFullCounter_getD_12, buildFullCounter_getD_13, buildFullCounter_getD_14,
    buildFullCounter_getD_15,
    jsShrU_ofNat c 24 (by omega) (by omega),
    jsShrU_ofNat c 16 (by omega) (by omega),
    jsShrU_ofNat c 8 (by omega) (by omega),
    jsAnd_255 (c / 2 ^ 24) (by omega), jsAnd_255 (c / 2 ^ 16) (by omega),
    jsAnd_255 (c / 2 ^ 8) (by omega), jsAnd_255 c (by omega), h12]
  have u12 : toUint32 (jsShl ((c / 2 ^ 24 : Nat) : Int) 24) = c / 2 ^ 24 * 2 ^ 24 :=
    toUint32_jsShl_small _ 24 (by omega) (by omega) (by omega)
  have u13 : toUint32 (jsShl ((c / 2 ^ 16 % 256 : Nat) : Int) 16)
      = c / 2 ^ 16 % 256 * 2 ^ 16 :=
    toUint32_jsShl_small _ 16 (by omega) (by omega) (by omega)
  have u14 : toUint32 (jsShl ((c / 2 ^ 8 % 256 : Nat) : Int) 8)
      = c / 2 ^ 8 % 256 * 2 ^ 8 :=
    toUint32_jsShl_small _ 8 (by omega) (by omega) (by omega)
  have u15 : toUint32 ((c % 256 : Nat) : Int) = c % 256 :=
    toUint32_ofNat _ (by omega)
  have e1 : c / 2 ^ 24 * 2 ^ 24 ||| c / 2 ^ 16 % 256 * 2 ^ 16
      = 2 ^ 16 * (2 ^ 8 * (c / 2 ^ 24) + c / 2 ^ 16 % 256) := by
    rw [Nat.mul_comm (c / 2 ^ 24) (2 ^ 24),
      ← Nat.mul_add_lt_is_or (show c / 2 ^ 16 % 256 * 2 ^ 16 < 2 ^ 24 by omega)
        (c / 2 ^ 24)]
    ring
  have e2 : 2 ^ 16 * (2 ^ 8 * (c / 2 ^ 24) + c / 2 ^ 16 % 256)
        ||| c / 2 ^ 8 % 256 * 2 ^ 8
      = 2 ^ 8 * (2 ^ 8 * (2 ^ 8 * (c / 2 ^ 24) + c / 2 ^ 16 % 256)
        + c / 2 ^ 8 % 256) := by
    rw [← Nat.mul_add_lt_is_or (show c / 2 ^ 8 % 256 * 2 ^ 8 < 2 ^ 16 by omega)
      (2 ^ 8 * (c / 2 ^ 24) + c / 2 ^ 16 % 256)]
    ring
  have e3 : 2 ^ 8 * (2 ^ 8 * (2 ^ 8 * (c / 2 ^ 24) + c / 2 ^ 16 % 256)
        + c / 2 ^ 8 % 256) ||| c % 256 = c := by
    rw [← Nat.mul_add_lt_is_or (show c % 256 < 2 ^ 8 by omega)
      (2 ^ 8 * (2 ^ 8 * (c / 2 ^ 24) + c / 2 ^ 16 % 256) + c / 2 ^ 8 % 256)]
    omega
  have o1 : toUint32 (jsOr (jsShl ((c / 2 ^ 24 : Nat) : Int) 24)
        (jsShl ((c / 2 ^ 16 % 256 : Nat) : Int) 16))
      = 2 ^ 16 * (2 ^ 8 * (c / 2 ^ 24) + c / 2 ^ 16 % 256) := by
    rw [toUint32_jsOr, u12, u13]
    exact e1
  have o2 : toUint32 (jsOr (jsOr (jsShl ((c / 2 ^ 24 : Nat) : Int) 24)
        (jsShl ((c / 2 ^ 16 % 256 : Nat) : Int) 16))
        (jsShl ((c / 2 ^ 8 % 256 : Nat) : Int) 8))
      = 2 ^ 8 * (2 ^ 8 * (2 ^ 8 * (c / 2 ^ 24) + c / 2 ^ 16 % 256)
        + c / 2 ^ 8 % 256) := by
    rw [toUint32_jsOr, o1, u14]
    exact e2
  rw [jsOr_eq, o2, u15, e3]

/-- C4 (amended): for every 12-byte nonce and every counter in `[0, 2^32)`,
assembling the 16-byte block as nonce followed by the four big-endian counter
bytes and splitting that block as the combined-layout path of `generateProof`
does recovers the original nonce exactly, and recovers the numeric counter as
its signed 32-bit reinterpretation: the exact original value for counters
below `2^31`, and the value reduced into `[-2^31, 2^31)` — the counter minus
`2^32` — for the upper half of the range (e.g. `2^31` comes back as `-2^31`),
because the split uses JavaScript signed `<<`/`|` arithmetic. -/
theorem counter_block_split_roundtrip (nonce : List Nat) (c : Nat)
    (hlen : nonce.length = 12) (hb : ∀ b ∈ nonce, b < 256)
    (hc : c < 4294967296) :
    splitNonce (buildFullCounter nonce (c : Int)) = nonce ∧
    splitCounterValue (buildFullCounter nonce (c : Int))
      = (if c < 2147483648 then (c : Int) else (c : Int) - 4294967296) := by
  refine ⟨splitNonce_buildFullCounter nonce (c : Int) hlen hb, ?_⟩
  rw [splitCounterValue_buildFullCounter nonce c hc]
  unfold toInt32
  rw [toUint32_ofNat c hc]

theorem counter_block_split_roundtrip_witness :
    (splitNonce (buildFullCounter
        [0, 108, 182, 219, 192, 84, 59, 89, 218, 72, 217, 11] ((1 : Nat) : Int))
        = [0, 108, 182, 219, 192, 84, 59, 89, 218, 72, 217, 11] ∧
      splitCounterValue (buildFullCounter
        [0, 108, 182, 219, 192, 84, 59, 89, 218, 72, 217, 11] ((1 : Nat) : Int))
        = (if (1 : Nat) < 2147483648 then ((1 : Nat) : Int)
           else ((1 : Nat) : Int) - 4294967296)) ∧
    (splitNonce (buildFullCounter (List.replicate 12 0)
        ((2147483648 : Nat) : Int)) = List.replicate 12 0 ∧
      splitCounterValue (buildFullCounter (List.replicate 12 0)
        ((2147483648 : Nat) : Int))
        = (if (2147483648 : Nat) < 2147483648 then ((2147483648 : Nat) : Int)
           else ((2147483648 : Nat) : Int) - 4294967296)) :=
  ⟨counter_block_split_roundtrip
      [0, 108, 182, 219, 192, 84, 59, 89, 218, 72, 217, 11] 1
      (by decide) (by decide) (by decide),
   counter_block_split_roundtrip (List.replicate 12 0) 2147483648
      (by decide) (by decide) (by decide)⟩

/-- C4 (counterexample): for the counter `2^31` (within the claimed range
`[0, 2^32)`), the split of the assembled block does not recover the original
counter value: the signed 32-bit arithmetic yields `-2^31`. -/
theorem counter_block_split_not_roundtrip_at_two_pow_31 :
    splitCounterValue (buildFullCounter
      [0, 0, 0, 0, 0, 0, 0, 0, 0, 0, 0, 0] ((2147483648 : Nat) : Int)) ≠
      ((2147483648 : Nat) : Int) := by decide

/-- Failures surfaced by the adapter layer.  JavaScript throws `Error` values
distinguished only by message; the constructors mirror the distinct messages
and the spec's taxonomy (§7). -/
inductive AdapterError where
  | unknownAlgorithm (name : String)
  | circuitFileNotFound (fileName : String)
  | notInitialized (name : String)
  | typeError (msg : String)
  | validationError (field : String) (expected actual : Nat)
  | verificationFailed
  deriving DecidableEq

/-- Lookup in a JS `Map` rendered as an association list. -/
def mapLookup {α : Type} (m : List (String × α)) (k : String) : Option α :=
  match m.find? (fun p => p.1 == k) with
  | some p => some p.2
  | none => none

/-- `Map.set`: overwrite any existing entry for the key. -/
def mapSet {α : Type} (m : List (String × α)) (k : String) (v : α) :
    List (String × α) :=
  (k, v) :: m.filter (fun p => !(p.1 == k))

/-- `Map.delete`: total, succeeds also when the key is absent. -/
def mapDelete {α : Type} (m : List (String × α)) (k : String) : List (String × α) :=
  m.filter (fun p => !(p.1 == k))

/-- `Array.from(map.keys())`. -/
def mapKeys {α : Type} (m : List (String × α)) : List String := m.map (fun p => p.1)

/-- The parsed compiled-circuit JSON stored in `this.circuits`. -/
structure CircuitArtifact where
  data : List Nat
  deriving DecidableEq

/-- Token for the operator closure returned by `makeSnarkJsZKOperator`
(`noir-adapter.test.js` lines 660-664); it captures the algorithm name. -/
structure OperatorHandle where
  algorithm : String
  deriving DecidableEq

/-- The mutable state of a `NoirCircuitAdapter` instance: the three `Map`
fields of the constructor (lines 614-617), plus two instrumentation counters
counting invocations of the circuit-file read (`fs.readFileSync` at line 648)
and of the operator constructor (`makeSnarkJsZKOperator` at line 660) — the
"call counter on the artifact loader/engine constructor" the spec's testable
property §8 speaks of. -/
structure AdapterState where
  circuits : List (String × CircuitArtifact)
  operators : List (String × OperatorHandle)
  backends : List (String × Unit)
  fileReadCount : Nat
  operatorConstructCount : Nat
  deriving DecidableEq

def emptyAdapterState : AdapterState :=
  { circuits := [], operators := [], backends := [], fileReadCount := 0,
    operatorConstructCount := 0 }

/-- The `fileNameMap` literal of `initializeCircuit` (lines 631-635). -/
def fileNameMap (circuitName : String) : Option String :=
  if circuitName == "aes-128-ctr" then some "aes_128_ctr.json"
  else if circuitName == "aes-256-ctr" then some "aes_256_ctr.json"
  else if circuitName == "chacha20" then some "chacha20.json"
  else none

/-- `initializeCircuit` (lines 626-674): resolve the file name (throwing
`Unknown circuit algorithm` otherwise), check the file exists (throwing
`Circuit file not found` otherwise), read and parse it, store it in
`circuits`, construct a fresh operator and store it in `operators`, return
`true`.  The catch clause rethrows, so errors propagate unchanged.  The file
system is an explicit parameter mapping file names to their parsed content. -/
def initializeCircuit (fileSystem : List (String × CircuitArtifact))
    (st : AdapterState) (circuitName : String) :
    AdapterState × Except AdapterError Bool :=
  match fileNameMap circuitName with
  | none => (st, .error (.unknownAlgorithm circuitName))
  | some fileName =>
    match mapLookup fileSystem fileName with
    | none => (st, .error (.circuitFileNotFound fileName))
    | some artifact =>
      let st1 := { st with circuits := mapSet st.circuits circuitName artifact,
                           fileReadCount := st.fileReadCount + 1 }
      let st2 := { st1 with
                   operators := mapSet st1.operators circuitName ⟨circuitName⟩,
                   operatorConstructCount := st1.operatorConstructCount + 1 }
      (st2, .ok true)

/-- `listCircuits` (lines 789-791): the keys of `this.operators`. -/
def listCircuits (st : AdapterState) : List String := mapKeys st.operators

/-- `cleanup` (lines 797-807): delete the algorithm from the three maps.  The
body cannot throw (`Map.delete` is total) and the catch clause only logs, so
the operation is rendered as a total state transformer. -/
def cleanupCircuit (st : AdapterState) (circuitName : String) : AdapterState :=
  { st with operators := mapDelete st.operators circuitName,
            circuits := mapDelete st.circuits circuitName,
            backends := mapDelete st.backends circuitName }

/-- The public input the adapter hands to the proving package:
`{ ciphertext, iv, offsetBytes }` (lines 709-713). -/
structure PublicInput where
  ciphertext : List Nat
  iv : List Nat
  offsetBytes : Nat
  deriving DecidableEq

/-- The proof artifact produced by the proving package.  Modelled from the
spec (the package is vendored outside `src/`): a proof attests to the public
input it was generated for and to the recovered plaintext (§4.4, glossary). -/
structure NoirProofData where
  algorithm : String
  ciphertext : List Nat
  iv : List Nat
  offsetBytes : Nat
  plaintext : List Nat
  deriving DecidableEq

/-- The dynamically typed `inputs.counter` field: the AES family passes the
combined 16-byte block, ChaCha20 passes a plain number. -/
inductive CounterInput where
  | bytes (counterArray : List Int)
  | value (counter : Int)
  deriving DecidableEq

/-- The `inputs` object accepted by `generateProof` (see
`test-noir-integration.js` lines 78-83 and 209-215). -/
structure ProofRequestInputs where
  key : List Int
  nonce : List Int := []
  counter : CounterInput
  plaintext : List Int := []
  expected_ciphertext : List Int
  deriving DecidableEq

/-- The object `generateProof` resolves with (lines 720-726); the `timestamp`
field (a `Date.now()` clock read) is omitted as it bears on no claim. -/
structure ProofResult where
  proof : NoirProofData
  publicSignals : List Nat
  circuitType : String
  circuitName : String
  deriving DecidableEq

/-- The expected key length per algorithm (spec §3/§4.1: 16 bytes for
AES-128-CTR, 32 bytes for AES-256-CTR and ChaCha20). -/
def keyLengthOf (algorithm : String) : Option Nat :=
  if algorithm == "aes-128-ctr" then some 16
  else if algorithm == "aes-256-ctr" then some 32
  else if algorithm == "chacha20" then some 32
  else none

/-- Modelled from the spec: `generateProof` of the `zk-symmetric-crypto-test`
package, which is vendored in the repository outside `src/` (only its caller
is under `src/`).  Per spec §4.2-§4.4 it rejects unknown algorithms, validates
the fixed byte lengths of key and nonce (`ValidationError` naming the
offending field and the expected/actual lengths), recovers the plaintext from
the ciphertext under the key (the cipher primitive is external, supplied here
as `decrypt`), and returns a proof artifact attesting to the supplied public
input together with that plaintext. -/
def pkgGenerateProof
    (decrypt : String → List Nat → List Nat → Nat → List Nat → List Nat)
    (algorithm : String) (key : List Nat) (pub : PublicInput) :
    Except AdapterError (NoirProofData × List Nat) :=
  match keyLengthOf algorithm with
  | none => .error (.unknownAlgorithm algorithm)
  | some keyLen =>
    if key.length ≠ keyLen then
      .error (.validationError "key" keyLen key.length)
    else if pub.iv.length ≠ 12 then
      .error (.validationError "nonce" 12 pub.iv.length)
    else
      let plaintext := decrypt algorithm key pub.iv pub.offsetBytes pub.ciphertext
      .ok ({ algorithm := algorithm, ciphertext := pub.ciphertext, iv := pub.iv,
             offsetBytes := pub.offsetBytes, plaintext := plaintext }, plaintext)

/-- Modelled from the spec: `verifyProof` of the package (vendored outside
`src/`).  It returns nothing and throws on failure (adapter comment at line
757); per spec §4.4-§4.5 and the §8 round-trip/tamper properties it accepts
exactly when the proof artifact is consistent with the supplied public
signals and public input for the algorithm. -/
def pkgVerifyProof (proof : NoirProofData) (publicSignals : List Nat)
    (pub : PublicInput) (algorithm : String) : Except AdapterError Unit :=
  if proof.algorithm == algorithm && proof.ciphertext == pub.ciphertext &&
      proof.iv == pub.iv && proof.offsetBytes == pub.offsetBytes &&
      proof.plaintext == publicSignals then
    .ok ()
  else .error .verificationFailed

/-- `generateProof` of `NoirCircuitAdapter` (lines 682-731): look up the
operator (throwing `Circuit ... not initialized` when absent); for ChaCha20
take `inputs.nonce` and `inputs.counter` as they are, otherwise treat
`inputs.counter` as the combined 16-byte block and split it (`slice(0, 12)`
for the nonce, signed shift/or arithmetic for the numeric counter — calling
`slice` on a number would throw a `TypeError`); note the extracted counter
value is bound but never used afterwards.  Build `privateInput` from the key
and `publicInput` from the expected ciphertext, the extracted nonce and
`offsetBytes: 0`; delegate to the package `generateProof`; wrap the result.
The catch clause rethrows, so errors propagate unchanged. -/
def adapterGenerateProof
    (decrypt : String → List Nat → List Nat → Nat → List Nat → List Nat)
    (st : AdapterState) (circuitName : String) (inputs : ProofRequestInputs) :
    Except AdapterError ProofResult :=
  match mapLookup st.operators circuitName with
  | none => .error (.notInitialized circuitName)
  | some _ =>
    let extracted : Except AdapterError (List Nat × Int) :=
      if circuitName == "chacha20" then
        .ok (inputs.nonce.map jsByteOf,
             match inputs.counter with
             | .value c => c
             | .bytes _ => 0)
      else
        match inputs.counter with
        | .bytes counterArray =>
          .ok (splitNonce counterArray, splitCounterValue counterArray)
        | .value _ => .error (.typeError "counterArray.slice is not a function")
    match extracted with
    | .error e => .error e
    | .ok (nonce, _counterValue) =>
      let privateKey := inputs.key.map jsByteOf
      let publicInput : PublicInput :=
        { ciphertext := inputs.expected_ciphertext.map jsByteOf,
          iv := nonce, offsetBytes := 0 }
      match pkgGenerateProof decrypt circuitName privateKey publicInput with
      | .error e => .error e
      | .ok (proofData, plaintext) =>
        .ok { proof := proofData, publicSignals := plaintext,
              circuitType := "noir", circuitName := circuitName }

/-- The body of the `try` block of `verifyProof` (lines 741-759): look up the
operator, throwing `Circuit ... not initialized` when absent; call the
package verifier (which throws on failure); resolve `true`.  The function is
parameterized over the package verifier so that the enclosing catch clause
can be analysed for every behaviour of the external call. -/
def verifyProofBody
    (pkgVerify : NoirProofData → List Nat → PublicInput → String →
      Except AdapterError Unit)
    (st : AdapterState) (circuitName : String) (proof : NoirProofData)
    (publicSignals : List Nat) (pub : PublicInput) : Except AdapterError Bool :=
  match mapLookup st.operators circuitName with
  | none => .error (.notInitialized circuitName)
  | some _ =>
    match pkgVerify proof publicSignals pub circuitName with
    | .error e => .error e
    | .ok _ => .ok true

/-- `verifyProof` of `NoirCircuitAdapter` (lines 740-764): the entire body
runs inside try/catch whose catch clause logs the error and returns `false`. -/
def adapterVerifyProof
    (pkgVerify : NoirProofData → List Nat → PublicInput → String →
      Except AdapterError Unit)
    (st : AdapterState) (circuitName : String) (proof : NoirProofData)
    (publicSignals : List Nat) (pub : PublicInput) : Except AdapterError Bool :=
  match verifyProofBody pkgVerify st circuitName proof publicSignals pub with
  | .ok b => .ok b
  | .error _ => .ok false

/-- A placeholder cipher for concrete witnesses: the external decryption
collaborator (the adapter never interprets it). -/
def decryptId : String → List Nat → List Nat → Nat → List Nat → List Nat :=
  fun _ _ _ _ ciphertext => ciphertext

/-- C2 (amended): for an algorithm with no initialized binding,
`generateProof` fails with the `Circuit ... not initialized` error, but
`verifyProof` does not surface such a failure: its catch clause converts the
internal not-initialized throw into an ordinary `false` result. -/
theorem uninitialized_generate_rejected_verify_false
    (decrypt : String → List Nat → List Nat → Nat → List Nat → List Nat)
    (pkgVerify : NoirProofData → List Nat → PublicInput → String →
      Except AdapterError Unit)
    (st : AdapterState) (circuitName : String) (inputs : ProofRequestInputs)
    (proof : NoirProofData) (publicSignals : List Nat) (pub : PublicInput)
    (h : mapLookup st.operators circuitName = none) :
    adapterGenerateProof decrypt st circuitName inputs
      = .error (.notInitialized circuitName) ∧
    adapterVerifyProof pkgVerify st circuitName proof publicSignals pub
      = .ok false := by
  constructor
  · unfold adapterGenerateProof
    rw [h]
  · unfold adapterVerifyProof verifyProofBody
    rw [h]

theorem uninitialized_generate_rejected_verify_false_witness :
    adapterGenerateProof decryptId emptyAdapterState "aes-128-ctr"
      { key := [], counter := .value 1, expected_ciphertext := [] }
      = .error (.notInitialized "aes-128-ctr") ∧
    adapterVerifyProof pkgVerifyProof emptyAdapterState "aes-128-ctr"
      { algorithm := "aes-128-ctr", ciphertext := [], iv := [], offsetBytes := 0,
        plaintext := [] } [] { ciphertext := [], iv := [], offsetBytes := 0 }
      = .ok false :=
  uninitialized_generate_rejected_verify_false decryptId pkgVerifyProof
    emptyAdapterState "aes-128-ctr"
    { key := [], counter := .value 1, expected_ciphertext := [] }
    { algorithm := "aes-128-ctr", ciphertext := [], iv := [], offsetBytes := 0,
      plaintext := [] } [] { ciphertext := [], iv := [], offsetBytes := 0 } rfl

/-- C2 (counterexample): calling `verifyProof` for a never-initialized
algorithm does not fail with a `NotInitializedError`-style failure — it
returns the normal boolean result `false` (the internal throw is caught by
the catch clause of `verifyProof`). -/
theorem verify_uninitialized_returns_normal_false :
    adapterVerifyProof pkgVerifyProof emptyAdapterState "aes-256-ctr"
      { algorithm := "aes-256-ctr", ciphertext := [1], iv := [2], offsetBytes := 0,
        plaintext := [3] } [3] { ciphertext := [1], iv := [2], offsetBytes := 0 }
      = .ok false := rfl

/-- C3: `verifyProof` always resolves to a boolean, for every adapter state,
every input, and every behaviour of the external package verifier; and
whenever the body raises any internal exception — whatever error the operator
lookup or the package call produces — the catch clause converts it to the
result `false`, never propagating it to the caller. -/
theorem verifyProof_always_resolves_boolean
    (pkgVerify : NoirProofData → List Nat → PublicInput → String →
      Except AdapterError Unit)
    (st : AdapterState) (circuitName : String) (proof : NoirProofData)
    (publicSignals : List Nat) (pub : PublicInput) :
    (∃ b : Bool, adapterVerifyProof pkgVerify st circuitName proof publicSignals
      pub = .ok b) ∧
    (∀ e, verifyProofBody pkgVerify st circuitName proof publicSignals pub
        = .error e →
      adapterVerifyProof pkgVerify st circuitName proof publicSignals pub
        = .ok false) := by
  constructor
  · unfold adapterVerifyProof
    cases h : verifyProofBody pkgVerify st circuitName proof publicSignals pub with
    | error e => exact ⟨false, rfl⟩
    | ok b => exact ⟨b, rfl⟩
  · intro e he
    unfold adapterVerifyProof
    rw [he]

theorem verifyProof_always_resolves_boolean_witness :
    adapterVerifyProof pkgVerifyProof emptyAdapterState "chacha20"
      { algorithm := "chacha20", ciphertext := [], iv := [], offsetBytes := 0,
        plaintext := [] } [] { ciphertext := [], iv := [], offsetBytes := 0 }
      = .ok false :=
  (verifyProof_always_resolves_boolean pkgVerifyProof emptyAdapterState
      "chacha20"
      { algorithm := "chacha20", ciphertext := [], iv := [], offsetBytes := 0,
        plaintext := [] } [] { ciphertext := [], iv := [], offsetBytes := 0 }).2
    (.notInitialized "chacha20") rfl

/-- Keys of a filtered map never contain the filtered-out key. -/
theorem not_mem_mapKeys_filter {α : Type} (m : List (String × α)) (k : String) :
    k ∉ mapKeys (m.filter (fun p => !(p.1 == k))) := by
  intro hmem
  unfold mapKeys at hmem
  rcases List.mem_map.mp hmem with ⟨p, hp, hpk⟩
  rcases List.mem_filter.mp hp with ⟨-, hcond⟩
  rw [hpk] at hcond
  simp at hcond

/-- C6: `cleanup` never throws (it is a total state transformer: the body
only performs `Map.delete`, and its catch clause swallows anything anyway);
after cleaning up any algorithm — including one never initialized — the list
of circuits does not contain it, a second cleanup leaves the state unchanged,
and the list still does not contain it after the second call. -/
theorem cleanup_idempotent_and_removes (st : AdapterState) (circuitName : String) :
    circuitName ∉ listCircuits (cleanupCircuit st circuitName) ∧
    cleanupCircuit (cleanupCircuit st circuitName) circuitName
      = cleanupCircuit st circuitName ∧
    circuitName ∉ listCircuits (cleanupCircuit (cleanupCircuit st circuitName)
      circuitName) := by
  refine ⟨?_, ?_, ?_⟩
  · exact not_mem_mapKeys_filter st.operators circuitName
  · unfold cleanupCircuit mapDelete
    simp [List.filter_filter]
  · exact not_mem_mapKeys_filter _ circuitName

/-- C10: when `initializeCircuit` fails early — unknown algorithm name, or
circuit file absent — the adapter state is returned unchanged (no map is
touched, no counter advanced), the result is an error, and `listCircuits`
is unaffected. -/
theorem initializeCircuit_early_failure_atomic
    (fileSystem : List (String × CircuitArtifact)) (st : AdapterState)
    (circuitName : String)
    (h : fileNameMap circuitName = none ∨
      ∃ fileName, fileNameMap circuitName = some fileName ∧
        mapLookup fileSystem fileName = none) :
    (initializeCircuit fileSystem st circuitName).1 = st ∧
    (∃ e, (initializeCircuit fileSystem st circuitName).2 = .error e) ∧
    listCircuits (initializeCircuit fileSystem st circuitName).1
      = listCircuits st := by
  rcases h with h | ⟨fileName, hf, hl⟩
  · unfold initializeCircuit
    rw [h]
    exact ⟨rfl, ⟨_, rfl⟩, rfl⟩
  · simp only [initializeCircuit, hf, hl]
    exact ⟨trivial, ⟨_, rfl⟩, trivial⟩

theorem initializeCircuit_early_failure_atomic_witness :
    (initializeCircuit [] emptyAdapterState "aes-gcm").1 = emptyAdapterState ∧
    (∃ e, (initializeCircuit [] emptyAdapterState "aes-gcm").2 = .error e) ∧
    listCircuits (initializeCircuit [] emptyAdapterState "aes-gcm").1
      = listCircuits emptyAdapterState :=
  initializeCircuit_early_failure_atomic [] emptyAdapterState "aes-gcm"
    (Or.inl rfl)

/-- A small concrete file system holding two compiled-circuit files. -/
def demoFileSystem : List (String × CircuitArtifact) :=
  [("aes_128_ctr.json", ⟨[1, 2, 3]⟩), ("chacha20.json", ⟨[4, 5, 6]⟩)]

/-- After `Map.set`, the key occurs exactly once among the keys. -/
theorem count_mapKeys_mapSet {α : Type} (m : List (String × α)) (k : String)
    (v : α) : (mapKeys (mapSet m k v)).count k = 1 := by
  have h0 : (mapKeys (m.filter (fun p => !(p.1 == k)))).count k = 0 :=
    List.count_eq_zero_of_not_mem (not_mem_mapKeys_filter m k)
  unfold mapSet mapKeys
  unfold mapKeys at h0
  rw [List.map_cons, List.count_cons_self, h0]

/-- C5 (counterexample): initializing `aes-128-ctr` twice in sequence reads
the circuit file twice and constructs a fresh operator on each call — the
artifact loader/engine constructor is invoked twice, not exactly once, across
the two calls (`initializeCircuit` has no already-initialized check). -/
theorem initialize_twice_reconstructs_engines :
    (initializeCircuit demoFileSystem
      (initializeCircuit demoFileSystem emptyAdapterState "aes-128-ctr").1
      "aes-128-ctr").1.operatorConstructCount = 2 ∧
    (initializeCircuit demoFileSystem
      (initializeCircuit demoFileSystem emptyAdapterState "aes-128-ctr").1
      "aes-128-ctr").1.fileReadCount = 2 ∧
    (initializeCircuit demoFileSystem
      (initializeCircuit demoFileSystem emptyAdapterState "aes-128-ctr").1
      "aes-128-ctr").1.operatorConstructCount ≠ 1 := by decide

/-- C5 (amended): re-initializing an already-initialized algorithm succeeds
(`true` both times) and the registry still holds exactly one binding for it,
but the call is not a no-op: the circuit file is re-read and a fresh operator
is constructed on each call, so the loader/constructor is invoked once per
call — twice across the two calls. -/
theorem reinitialize_succeeds_but_reconstructs
    (fileSystem : List (String × CircuitArtifact)) (st : AdapterState)
    (circuitName fileName : String) (artifact : CircuitArtifact)
    (hf : fileNameMap circuitName = some fileName)
    (hl : mapLookup fileSystem fileName = some artifact) :
    (initializeCircuit fileSystem st circuitName).2 = .ok true ∧
    (initializeCircuit fileSystem
      (initializeCircuit fileSystem st circuitName).1 circuitName).2 = .ok true ∧
    (listCircuits (initializeCircuit fileSystem
      (initializeCircuit fileSystem st circuitName).1 circuitName).1).count
        circuitName = 1 ∧
    (initializeCircuit fileSystem
      (initializeCircuit fileSystem st circuitName).1
      circuitName).1.operatorConstructCount = st.operatorConstructCount + 2 ∧
    (initializeCircuit fileSystem
      (initializeCircuit fileSystem st circuitName).1
      circuitName).1.fileReadCount = st.fileReadCount + 2 := by
  simp only [initializeCircuit, hf, hl, listCircuits]
  exact ⟨trivial, trivial, count_mapKeys_mapSet _ circuitName _, trivial, trivial⟩

theorem reinitialize_succeeds_but_reconstructs_witness :
    (initializeCircuit demoFileSystem emptyAdapterState "chacha20").2
      = .ok true ∧
    (initializeCircuit demoFileSystem
      (initializeCircuit demoFileSystem emptyAdapterState "chacha20").1
      "chacha20").2 = .ok true ∧
    (listCircuits (initializeCircuit demoFileSystem
      (initializeCircuit demoFileSystem emptyAdapterState "chacha20").1
      "chacha20").1).count "chacha20" = 1 ∧
    (initializeCircuit demoFileSystem
      (initializeCircuit demoFileSystem emptyAdapterState "chacha20").1
      "chacha20").1.operatorConstructCount
        = emptyAdapterState.operatorConstructCount + 2 ∧
    (initializeCircuit demoFileSystem
      (initializeCircuit demoFileSystem emptyAdapterState "chacha20").1
      "chacha20").1.fileReadCount = emptyAdapterState.fileReadCount + 2 :=
  reinitialize_succeeds_but_reconstructs demoFileSystem emptyAdapterState
    "chacha20" "chacha20.json" ⟨[4, 5, 6]⟩ rfl rfl

/-- The adapter state after a successful demo initialization of `aes-128-ctr`. -/
def stReadyAes : AdapterState :=
  (initializeCircuit demoFileSystem emptyAdapterState "aes-128-ctr").1

/-- The adapter state after a successful demo initialization of `chacha20`. -/
def stReadyChaCha : AdapterState :=
  (initializeCircuit demoFileSystem emptyAdapterState "chacha20").1

/-- Unfolding of the combined-layout path of `generateProof`: with an
initialized operator and the counter supplied as a byte array, the call is
exactly the package call on the key, the expected ciphertext, the first 12
block bytes as `iv`, and `offsetBytes: 0`. -/
theorem adapterGenerateProof_aes_unfold
    (decrypt : String → List Nat → List Nat → Nat → List Nat → List Nat)
    (st : AdapterState) (inputs : ProofRequestInputs) (counterArray : List Int)
    (op : OperatorHandle)
    (hsome : mapLookup st.operators "aes-128-ctr" = some op)
    (hcnt : inputs.counter = .bytes counterArray) :
    adapterGenerateProof decrypt st "aes-128-ctr" inputs =
      match pkgGenerateProof decrypt "aes-128-ctr" (inputs.key.map jsByteOf)
        { ciphertext := inputs.expected_ciphertext.map jsByteOf,
          iv := splitNonce counterArray, offsetBytes := 0 } with
      | .error e => .error e
      | .ok (proofData, plaintext) =>
        .ok { proof := proofData, publicSignals := plaintext,
              circuitType := "noir", circuitName := "aes-128-ctr" } := by
  unfold adapterGenerateProof
  rw [hsome, hcnt]
  rfl

/-- The package-level `generateProof` model succeeds whenever the key has the
algorithm's length and the nonce is 12 bytes, returning the proof artifact
attesting to the supplied public input. -/
theorem pkgGenerateProof_ok
    (decrypt : String → List Nat → List Nat → Nat → List Nat → List Nat)
    (algorithm : String) (key : List Nat) (pub : PublicInput) (keyLen : Nat)
    (halg : keyLengthOf algorithm = some keyLen) (hkey : key.length = keyLen)
    (hiv : pub.iv.length = 12) :
    pkgGenerateProof decrypt algorithm key pub =
      .ok ({ algorithm := algorithm, ciphertext := pub.ciphertext, iv := pub.iv,
             offsetBytes := pub.offsetBytes,
             plaintext := decrypt algorithm key pub.iv pub.offsetBytes
               pub.ciphertext },
           decrypt algorithm key pub.iv pub.offsetBytes pub.ciphertext) := by
  unfold pkgGenerateProof
  rw [halg]
  simp [hkey, hiv]

/-- C7 (counterexample): a `generateProof` call whose combined nonce+counter
block has the wrong length (20 bytes instead of the required 16) is not
rejected with a `ValidationError` — it succeeds, silently using only the
first 12 bytes of the block. -/
theorem generateProof_oversized_block_not_rejected :
    (adapterGenerateProof decryptId stReadyAes "aes-128-ctr"
      { key := List.replicate 16 0, counter := .bytes (List.replicate 20 1),
        expected_ciphertext := [1, 2, 3] }).isOk = true := by decide

/-- C7 (amended): the adapter performs no byte-length validation of its own.
With an initialized operator and the counter supplied as a byte array of any
length of at least 12, a call with a 16-byte key succeeds — even when the
block is not 16 bytes long — and the proof's `iv` is silently truncated to
the first 12 block bytes; only the key length is checked at all, by the
package layer (spec §4.3), which does reject a wrong-length key with a
`ValidationError` naming the field and the expected/actual lengths. -/
theorem generateProof_no_adapter_length_validation
    (decrypt : String → List Nat → List Nat → Nat → List Nat → List Nat)
    (st : AdapterState) (inputs : ProofRequestInputs) (counterArray : List Int)
    (op : OperatorHandle)
    (hsome : mapLookup st.operators "aes-128-ctr" = some op)
    (hcnt : inputs.counter = .bytes counterArray)
    (hblk : 12 ≤ counterArray.length) :
    (inputs.key.length = 16 →
      ∃ r, adapterGenerateProof decrypt st "aes-128-ctr" inputs = .ok r ∧
        r.proof.iv = splitNonce counterArray) ∧
    (inputs.key.length ≠ 16 →
      adapterGenerateProof decrypt st "aes-128-ctr" inputs
        = .error (.validationError "key" 16 inputs.key.length)) := by
  have hiv : (splitNonce counterArray).length = 12 := by
    unfold splitNonce
    rw [List.length_map, List.length_take]
    omega
  rw [adapterGenerateProof_aes_unfold decrypt st inputs counterArray op hsome hcnt]
  constructor
  · intro hkey
    rw [pkgGenerateProof_ok decrypt "aes-128-ctr" (inputs.key.map jsByteOf) _ 16 rfl
      (by rw [List.length_map]; exact hkey) hiv]
    exact ⟨_, rfl, rfl⟩
  · intro hkey
    unfold pkgGenerateProof keyLengthOf
    simp only [List.length_map]
    simp [hkey]

theorem generateProof_no_adapter_length_validation_witness :
    ∃ r, adapterGenerateProof decryptId stReadyAes "aes-128-ctr"
        { key := List.replicate 16 0, counter := .bytes (List.replicate 20 1),
          expected_ciphertext := [1, 2, 3] } = .ok r ∧
      r.proof.iv = splitNonce (List.replicate 20 1) :=
  (generateProof_no_adapter_length_validation decryptId stReadyAes
      { key := List.replicate 16 0, counter := .bytes (List.replicate 20 1),
        expected_ciphertext := [1, 2, 3] }
      (List.replicate 20 1) ⟨"aes-128-ctr"⟩ (by decide) rfl (by decide)).1
    (by decide)

/-- Unfolding of the ChaCha20 path of `generateProof`: with an initialized
operator and a numeric counter, the call is exactly the package call on the
key, the expected ciphertext, `inputs.nonce` as `iv`, and `offsetBytes: 0` —
the numeric counter does not appear. -/
theorem adapterGenerateProof_chacha_unfold
    (decrypt : String → List Nat → List Nat → Nat → List Nat → List Nat)
    (st : AdapterState) (inputs : ProofRequestInputs) (c : Int)
    (op : OperatorHandle)
    (hsome : mapLookup st.operators "chacha20" = some op)
    (hcnt : inputs.counter = .value c) :
    adapterGenerateProof decrypt st "chacha20" inputs =
      match pkgGenerateProof decrypt "chacha20" (inputs.key.map jsByteOf)
        { ciphertext := inputs.expected_ciphertext.map jsByteOf,
          iv := inputs.nonce.map jsByteOf, offsetBytes := 0 } with
      | .error e => .error e
      | .ok (proofData, plaintext) =>
        .ok { proof := proofData, publicSignals := plaintext,
              circuitType := "noir", circuitName := "chacha20" } := by
  unfold adapterGenerateProof
  rw [hsome, hcnt]
  rfl

/-- C8 (counterexample): a `generateProof` call supplying the numeric counter
`2^32` (greater than `2^32 - 1`) is not rejected with a `ValidationError` —
the call succeeds. -/
theorem generateProof_counter_over_u32_not_rejected :
    (adapterGenerateProof decryptId stReadyChaCha "chacha20"
      { key := List.replicate 32 0, nonce := List.replicate 12 0,
        counter := .value 4294967296, expected_ciphertext := [5] }).isOk
      = true := by decide

/-- C8 (amended): the code performs no range check on the numeric counter.
The result of `generateProof` is entirely independent of the supplied counter
value (the ChaCha20 path extracts it into a variable that is never used), and
with an initialized operator and well-sized key and nonce the call succeeds
for every counter value — including values at or above `2^32`, which are
neither rejected nor wrapped nor encoded. -/
theorem generateProof_counter_unchecked_and_unused
    (decrypt : String → List Nat → List Nat → Nat → List Nat → List Nat)
    (st : AdapterState) (inputs : ProofRequestInputs) (c1 c2 : Int) :
    adapterGenerateProof decrypt st "chacha20"
        { inputs with counter := .value c1 }
      = adapterGenerateProof decrypt st "chacha20"
        { inputs with counter := .value c2 } ∧
    ((mapLookup st.operators "chacha20").isSome = true →
      inputs.key.length = 32 → inputs.nonce.length = 12 →
      inputs.counter = .value c1 →
      (adapterGenerateProof decrypt st "chacha20" inputs).isOk = true) := by
  constructor
  · rfl
  · intro hop hkey hnonce hcnt
    obtain ⟨op, hsome⟩ := Option.isSome_iff_exists.mp hop
    rw [adapterGenerateProof_chacha_unfold decrypt st inputs c1 op hsome hcnt,
      pkgGenerateProof_ok decrypt "chacha20" (inputs.key.map jsByteOf) _ 32 rfl
        (by rw [List.length_map]; exact hkey)
        (by show (inputs.nonce.map jsByteOf).length = 12
            rw [List.length_map]; exact hnonce)]
    rfl

theorem generateProof_counter_unchecked_and_unused_witness :
    ((mapLookup stReadyChaCha.operators "chacha20").isSome = true) ∧
    ((adapterGenerateProof decryptId stReadyChaCha "chacha20"
      { key := List.replicate 32 0, nonce := List.replicate 12 0,
        counter := .value 4294967297, expected_ciphertext := [5] }).isOk
      = true) :=
  ⟨by decide,
   (generateProof_counter_unchecked_and_unused decryptId stReadyChaCha
      { key := List.replicate 32 0, nonce := List.replicate 12 0,
        counter := .value 4294967297, expected_ciphertext := [5] }
      4294967297 0).2 (by decide) (by decide) (by decide) rfl⟩

/-- C1: round trip.  For every key of the declared length, 12-byte nonce,
counter and ciphertext (computed externally — the pipeline receives only the
resulting ciphertext), a successful `generateProof` for `aes-128-ctr` with
the combined block and `byteOffset 0`, followed by `verifyProof` with the
returned proof, its public signals, and the same public input, yields
`true`.  The proving package is modelled from the spec (§4.4, §8): a proof
attests to the public input it was generated for. -/
theorem generate_then_verify_roundtrip
    (decrypt : String → List Nat → List Nat → Nat → List Nat → List Nat)
    (st : AdapterState) (key ct : List Int) (nonce : List Nat) (c : Int)
    (op : OperatorHandle)
    (hsome : mapLookup st.operators "aes-128-ctr" = some op)
    (hkey : key.length = 16) (hnl : nonce.length = 12)
    (hnb : ∀ b ∈ nonce, b < 256) :
    ∃ r, adapterGenerateProof decrypt st "aes-128-ctr"
        { key := key, counter := .bytes (buildFullCounter nonce c),
          expected_ciphertext := ct } = .ok r ∧
      adapterVerifyProof pkgVerifyProof st "aes-128-ctr" r.proof r.publicSignals
        { ciphertext := ct.map jsByteOf, iv := nonce, offsetBytes := 0 }
        = .ok true := by
  have hsplit := splitNonce_buildFullCounter nonce c hnl hnb
  rw [adapterGenerateProof_aes_unfold decrypt st _ (buildFullCounter nonce c) op
    hsome rfl]
  dsimp only
  rw [hsplit,
    pkgGenerateProof_ok decrypt "aes-128-ctr" (key.map jsByteOf) _ 16 rfl
      (by rw [List.length_map]; exact hkey) hnl]
  refine ⟨_, rfl, ?_⟩
  unfold adapterVerifyProof verifyProofBody
  rw [hsome]
  unfold pkgVerifyProof
  simp

theorem generate_then_verify_roundtrip_witness :
    ∃ r, adapterGenerateProof decryptId stReadyAes "aes-128-ctr"
        { key := List.replicate 16 0,
          counter := .bytes (buildFullCounter (List.replicate 12 0) 1),
          expected_ciphertext := [9] } = .ok r ∧
      adapterVerifyProof pkgVerifyProof stReadyAes "aes-128-ctr" r.proof
        r.publicSignals
        { ciphertext := List.map jsByteOf [9], iv := List.replicate 12 0,
          offsetBytes := 0 } = .ok true :=
  generate_then_verify_roundtrip decryptId stReadyAes (List.replicate 16 0) [9]
    (List.replicate 12 0) 1 ⟨"aes-128-ctr"⟩ (by decide) (by decide) (by decide)
    (by decide)

/-- The value the JS closure variable `circuit` may hold after parsing.  The
`truthy` field records the JS truthiness of the parsed JSON value — a real
compiled-circuit object is truthy; the `if(!circuit)` guard re-fetches
otherwise. -/
structure CompiledCircuitJson where
  bytecode : List Nat
  truthy : Bool
  deriving DecidableEq

/-- The state of one Barretenberg operator closure (`part_002`): the cached
`circuit` variable, plus a counter of `fetcher.fetch` invocations. -/
structure BarretenbergOperatorState where
  circuit : Option CompiledCircuitJson
  fetchCount : Nat
  deriving DecidableEq

/-- The fetch-and-parse arm of `loadCircuit` (`part_002` lines 30-37): invoke
the fetcher (behaviour indexed by the invocation count), decode and
`JSON.parse` the bytes; a failure of either propagates and leaves the cache
variable untouched; on success the parsed circuit is stored. -/
def loadCircuitFetch (fetchFn : Nat → Except String (List Nat))
    (parseJson : List Nat → Except String CompiledCircuitJson)
    (st : BarretenbergOperatorState) :
    BarretenbergOperatorState × Except String CompiledCircuitJson :=
  match fetchFn st.fetchCount with
  | .error e => ({ st with fetchCount := st.fetchCount + 1 }, .error e)
  | .ok bytes =>
    match parseJson bytes with
    | .error e => ({ st with fetchCount := st.fetchCount + 1 }, .error e)
    | .ok c => ({ circuit := some c, fetchCount := st.fetchCount + 1 }, .ok c)

/-- `loadCircuit` of the Barretenberg operator (`part_002` lines 28-41): when
the closure variable `circuit` holds a truthy value it is returned without
invoking the fetcher; otherwise (unset, per the JS `!circuit` guard) the
artifact is fetched, parsed, and cached. -/
def loadCircuit (fetchFn : Nat → Except String (List Nat))
    (parseJson : List Nat → Except String CompiledCircuitJson)
    (st : BarretenbergOperatorState) :
    BarretenbergOperatorState × Except String CompiledCircuitJson :=
  match st.circuit with
  | some c =>
    if c.truthy then (st, .ok c) else loadCircuitFetch fetchFn parseJson st
  | none => loadCircuitFetch fetchFn parseJson st

theorem loadCircuitFetch_ok (fetchFn : Nat → Except String (List Nat))
    (parseJson : List Nat → Except String CompiledCircuitJson)
    (st st2 : BarretenbergOperatorState) (cc : CompiledCircuitJson)
    (h : loadCircuitFetch fetchFn parseJson st = (st2, .ok cc)) :
    st2.circuit = some cc ∧ st2.fetchCount = st.fetchCount + 1 := by
  unfold loadCircuitFetch at h
  split at h
  · simp at h
  · split at h
    · simp at h
    · simp only [Prod.mk.injEq, Except.ok.injEq] at h
      obtain ⟨h1, h2⟩ := h
      subst h2
      rw [← h1]
      exact ⟨rfl, rfl⟩

theorem loadCircuitFetch_error (fetchFn : Nat → Except String (List Nat))
    (parseJson : List Nat → Except String CompiledCircuitJson)
    (st st2 : BarretenbergOperatorState) (e : String)
    (h : loadCircuitFetch fetchFn parseJson st = (st2, .error e)) :
    st2.circuit = st.circuit ∧ st2.fetchCount = st.fetchCount + 1 := by
  unfold loadCircuitFetch at h
  split at h
  · simp only [Prod.mk.injEq] at h
    obtain ⟨h1, -⟩ := h
    rw [← h1]
    exact ⟨rfl, rfl⟩
  · split at h
    · simp only [Prod.mk.injEq] at h
      obtain ⟨h1, -⟩ := h
      rw [← h1]
      exact ⟨rfl, rfl⟩
    · simp at h

theorem loadCircuitFetch_count (fetchFn : Nat → Except String (List Nat))
    (parseJson : List Nat → Except String CompiledCircuitJson)
    (st : BarretenbergOperatorState) :
    (loadCircuitFetch fetchFn parseJson st).1.fetchCount = st.fetchCount + 1 := by
  unfold loadCircuitFetch
  split
  · rfl
  · split
    · rfl
    · rfl

/-- C9: artifact loading is cached on success and only on success.  First
conjunct: after a load that returned a (truthy) artifact, a further load
returns the same artifact from the same state — in particular the fetch
counter does not advance, so the fetcher is not re-invoked.  Second conjunct:
a failed load from an empty cache leaves the cache empty and has consumed one
fetcher invocation, and the next load invokes the fetcher again (its fetch
counter advances once more) instead of repeating a cached failure. -/
theorem loadCircuit_cache_success_not_failure
    (fetchFn : Nat → Except String (List Nat))
    (parseJson : List Nat → Except String CompiledCircuitJson) :
    (∀ st st2 cc, loadCircuit fetchFn parseJson st = (st2, .ok cc) →
      cc.truthy = true →
      loadCircuit fetchFn parseJson st2 = (st2, .ok cc)) ∧
    (∀ st st2 e, st.circuit = none →
      loadCircuit fetchFn parseJson st = (st2, .error e) →
      st2.circuit = none ∧ st2.fetchCount = st.fetchCount + 1 ∧
      (loadCircuit fetchFn parseJson st2).1.fetchCount = st2.fetchCount + 1) := by
  constructor
  · intro st st2 cc h ht
    have hcache : st2.circuit = some cc := by
      unfold loadCircuit at h
      split at h
      · split at h
        · rename_i x c0 heq htr
          simp only [Prod.mk.injEq, Except.ok.injEq] at h
          obtain ⟨h1, h2⟩ := h
          rw [← h1, heq, h2]
        · exact (loadCircuitFetch_ok fetchFn parseJson st st2 cc h).1
      · exact (loadCircuitFetch_ok fetchFn parseJson st st2 cc h).1
    unfold loadCircuit
    rw [hcache]
    simp [ht]
  · intro st st2 e hc h
    unfold loadCircuit at h
    rw [hc] at h
    obtain ⟨h1, h2⟩ := loadCircuitFetch_error fetchFn parseJson st st2 e h
    rw [hc] at h1
    refine ⟨h1, h2, ?_⟩
    unfold loadCircuit
    rw [h1]
    exact loadCircuitFetch_count fetchFn parseJson st2

theorem loadCircuit_cache_success_not_failure_witness :
    (loadCircuit (fun i => if i == 0 then .error "resource not found" else .ok [7])
      (fun bytes => .ok ⟨bytes, true⟩) ⟨some ⟨[7], true⟩, 2⟩
      = (⟨some ⟨[7], true⟩, 2⟩, .ok ⟨[7], true⟩)) ∧
    ((⟨none, 1⟩ : BarretenbergOperatorState).circuit = none ∧
      (⟨none, 1⟩ : BarretenbergOperatorState).fetchCount = 0 + 1 ∧
      (loadCircuit
        (fun i => if i == 0 then .error "resource not found" else .ok [7])
        (fun bytes => .ok ⟨bytes, true⟩) ⟨none, 1⟩).1.fetchCount = 1 + 1) :=
  ⟨(loadCircuit_cache_success_not_failure
      (fun i => if i == 0 then .error "resource not found" else .ok [7])
      (fun bytes => .ok ⟨bytes, true⟩)).1 ⟨some ⟨[7], true⟩, 2⟩
      ⟨some ⟨[7], true⟩, 2⟩ ⟨[7], true⟩ rfl rfl,
   (loadCircuit_cache_success_not_failure
      (fun i => if i == 0 then .error "resource not found" else .ok [7])
      (fun bytes => .ok ⟨bytes, true⟩)).2 ⟨none, 0⟩ ⟨none, 1⟩
      "resource not found" rfl rfl⟩
